import Mathlib

/-!
Shallow embedding of the `compressor` batch media-compression tool
(sources: `src/main.rs`, `src/file.rs`, `src/utilities.rs`, `src/video.rs`).

Strings are modelled as Lean `String` (or `List Char` where character-level
processing from the Rust code must be re-traced), machine integers as `Nat`,
and `f64`/`f32` arithmetic on the small, exactly-representable quantities the
code manipulates as exact rational arithmetic (`ℚ`) with Rust's
round-half-away-from-zero rounding made explicit.  External effects
(filesystem metadata, subprocess spawning, exit statuses) are supplied by an
explicit environment record, and the side effects a run performs are reported
in an explicit trace, so that the order of operations of the Rust functions is
preserved observably.
-/

/-! ## Character-level string helpers (re-implemented so the kernel can
evaluate them; they mirror the Rust `str` methods used by the sources). -/

/-- Whitespace test used by `str::trim` (ASCII subset, sufficient for the
prober's `width,height` output). -/
def is_ws (c : Char) : Bool := c == ' ' || c == '\t' || c == '\n' || c == '\r'

/-- Rust `str::trim`: remove leading and trailing whitespace. -/
def trim_chars (s : List Char) : List Char :=
  ((s.dropWhile is_ws).reverse.dropWhile is_ws).reverse

/-- Rust `str::split(',')`: split at every comma; the empty string yields one
empty field. -/
def split_comma : List Char → List (List Char)
  | [] => [[]]
  | c :: rest =>
    match split_comma rest, c == ',' with
    | r, true => [] :: r
    | [], false => [[c]]
    | h :: t, false => (c :: h) :: t

/-- Rust `str::parse::<u32>()` restricted to plain digit strings: all-digit,
non-empty, in `u32` range (the `+`-sign form accepted by Rust never occurs in
prober output). -/
def parse_u32 (s : List Char) : Option Nat :=
  if s = [] then none
  else if s.all (fun c => c.isDigit) then
    let n := s.foldl (fun acc c => acc * 10 + (c.toNat - 48)) 0
    if n < 4294967296 then some n else none
  else none

/-- Test that `pat` occurs as a prefix of `s` (helper for the substring test). -/
def starts_with_chars : List Char → List Char → Bool
  | _, [] => true
  | [], _ :: _ => false
  | b :: bs, a :: as_ => a == b && starts_with_chars bs as_

/-- Rust `str::contains(pat)`: `pat` occurs as a contiguous substring of `s`. -/
def contains_chars : List Char → List Char → Bool
  | [], pat => starts_with_chars [] pat
  | c :: rest, pat => starts_with_chars (c :: rest) pat || contains_chars rest pat

/-! ## `src/main.rs`: the pipeline driver's skip decisions -/

/-- The exclusion check of the driver loop (`main.rs` line 43):
`filepath.contains(format!("/{}/", &args.output_dir))` — a literal substring
match of `"/<output_dir>/"` against the candidate path string. -/
def main_skip_check (output_dir filepath : String) : Bool :=
  contains_chars filepath.data ('/' :: output_dir.data ++ ['/'])

/-- True subtree containment on canonicalized paths, modelled on path
components: `root` is an ancestor of (or equal to) `path` exactly when the
component list of `root` is an initial segment of that of `path`.  This is the
contract the specification mandates for the exclusion rule. -/
def is_descendant : List String → List String → Bool
  | [], _ => true
  | _ :: _, [] => false
  | r :: rs, p :: ps => r == p && is_descendant rs ps

/-- The per-file skip decision of the driver (`main.rs` lines 59, 66, 73):
`fs::metadata(&output_path).is_ok() && !args.force`.  `output_metadata_ok` is
the result of the metadata probe on the output target. -/
def shouldSkip (output_metadata_ok force : Bool) : Bool :=
  output_metadata_ok && !force

/-! ## `src/utilities.rs` -/

/-- Function `get_aspect_ratio` from `utilities.rs`: guarded ratio of two `u32`
dimensions; the `f32` division of the in-range operands is modelled exactly
in `ℚ`. -/
def get_aspect_ratio (width height : Nat) : ℚ :=
  if width = 0 || height = 0 then 0
  else (width : ℚ) / (height : ℚ)

/-! ## `src/video.rs`: aspect-ratio heuristic -/

/-- Rust `f64::round`: nearest integer, ties away from zero. -/
def round_half_away (q : ℚ) : ℤ :=
  if q < 0 then -⌊-q + 1/2⌋ else ⌊q + 1/2⌋

/-- The value `(width as f64 / height as f64 * 1000.0).round() / 1000.0`
(`video.rs` lines 112 and 243): the aspect ratio rounded to three decimal
places. -/
def aspect_ratio_3dp (width height : Nat) : ℚ :=
  (round_half_away ((width : ℚ) / (height : ℚ) * 1000) : ℚ) / 1000

/-- The band test `aspect_ratio >= 1.775 && aspect_ratio <= 1.781` (`video.rs` line 115). -/
def is_16_9 (width height : Nat) : Bool :=
  decide ((1775 : ℚ)/1000 ≤ aspect_ratio_3dp width height)
    && decide (aspect_ratio_3dp width height ≤ (1781 : ℚ)/1000)

/-- The conjunction `is_16_9 && (width > 1920 || height > 1080)` (`video.rs` line 118): the
decision to apply the `-vf scale=1920:-2` downscale filter. -/
def resize_decision (width height : Nat) : Bool :=
  is_16_9 width height && (decide (1920 < width) || decide (1080 < height))

/-- Parse of the prober's stdout (`video.rs` lines 103-110): trim, split at
commas, and require exactly two `u32` fields. -/
def parse_dims (probe_stdout : List Char) : Option (Nat × Nat) :=
  match split_comma (trim_chars probe_stdout) with
  | [a, b] =>
    match parse_u32 a, parse_u32 b with
    | some w, some h => some (w, h)
    | _, _ => none
  | _ => none

/-- The resize decision as a function of raw prober stdout: any parse failure
yields `false` (no resize filter). -/
def probe_resize (probe_stdout : List Char) : Bool :=
  match parse_dims probe_stdout with
  | some (w, h) => resize_decision w h
  | none => false

/-! ## `src/video.rs`: environment, errors, traces -/

/-- Tags for the distinct error sites of `compress_video` and
`compress_video_with_options` (the Rust code returns formatted `String`s;
each constructor stands for one `return Err(...)` / `map_err` site). -/
inductive VideoError where
  | fileNotFound
  | unsupportedFormat
  | createDirFailed
  | metadataFailed
  | encoderUnavailable
  | probeRunFailed
  | ffmpegRunFailed
  | ffmpegExitError
  | outputMetadataFailed
deriving DecidableEq, Repr

/-- Compression statistics (`CompressionStats` in `video.rs`); sizes in
bytes, percentage and duration as exact rationals standing for the `f64`s. -/
structure CompressionStats where
  original_size : Nat
  compressed_size : Nat
  size_reduction_percent : ℚ
  duration_seconds : ℚ
deriving DecidableEq, Repr

/-- External-world outcomes consumed by one call of a video-compression
function, in the order the Rust code would observe them. -/
structure VideoEnv where
  /-- Result of `input_path.exists()` -/
  inputExists : Bool
  /-- Result of `input_path.extension()` as a character list (`None` = no extension) -/
  inputExtension : Option (List Char)
  /-- the output path has a parent that does not yet exist -/
  parentMissing : Bool
  /-- outcome of `fs::create_dir_all` if attempted -/
  createDirOk : Bool
  /-- Result of `fs::metadata(input_path)`: `some size` on success -/
  inputSize : Option Nat
  /-- Result of `Command::new("ffmpeg").arg("-version").output().is_ok()` -/
  ffmpegOk : Bool
  /-- ffprobe spawn: `some stdout` when `output()` succeeds, `none` when the
  spawn itself fails -/
  probeSpawn : Option (List Char)
  /-- the ffmpeg encode invocation spawned successfully -/
  encodeSpawnOk : Bool
  /-- the ffmpeg encode invocation exited with status 0 -/
  encodeExitSuccess : Bool
  /-- Result of `fs::metadata(output_path)` after the encode: `some size` on success -/
  outputSize : Option Nat
  /-- Result of `start.elapsed().as_secs_f64()` -/
  elapsedSeconds : ℚ

/-- Side effects performed by one call, with the exact encoder argument list
when the encoder was invoked. -/
structure Trace where
  dirCreateAttempted : Bool
  probeAttempted : Bool
  encoderInvoked : Bool
  encoderArgs : List String
deriving DecidableEq, Repr

def empty_trace : Trace := ⟨false, false, false, []⟩

/-- The array `video_extensions` (`video.rs` line 61). -/
def video_extensions : List (List Char) :=
  [".mp4".data, ".avi".data, ".mov".data, ".mkv".data,
   ".wmv".data, ".flv".data, ".webm".data]

/-- The extension admission check of `compress_video` (`video.rs` lines
61-69): lower-case the extension, prepend a dot, and test membership in
`video_extensions`; a missing extension is rejected. -/
def ext_ok : Option (List Char) → Bool
  | some ext => video_extensions.contains ('.' :: ext.map Char.toLower)
  | none => false

/-- The expression `100.0 * (1.0 - (compressed as f64 / original as f64))` (`video.rs`
lines 163 and 320), in exact rational arithmetic.  NOTE: for
`original = 0` the Rust `f64` expression divides by zero (NaN or `-inf`);
`ℚ` division by zero instead yields `0`, so this model returns `100` there —
the unguarded division is exposed by the theorems about claim C5. -/
def size_reduction_percent (original compressed : Nat) : ℚ :=
  100 * (1 - (compressed : ℚ) / (original : ℚ))

/-- The fixed argument list of the baseline encode (`video.rs` lines
125-149), with the optional `-vf scale=1920:-2` resize filter. -/
def ffmpeg_args (input_path output_path crf preset : String) (resize : Bool) :
    List String :=
  ["-i", input_path, "-c:v", "libx264", "-crf", crf, "-preset", preset,
   "-c:a", "aac", "-b:a", "128k"]
  ++ (if resize then ["-vf", "scale=1920:-2"] else [])
  ++ ["-y", output_path]

/-- Shared tail of both compression functions: invoke the encoder with the
fully-built argument list, check the spawn and the exit status, stat the
output, and build the statistics record (`video.rs` lines 147-174 and
307-331). -/
def run_encode (env : VideoEnv) (original_size : Nat) (probed : Bool)
    (args : List String) : Except VideoError CompressionStats × Trace :=
  if !env.encodeSpawnOk then
    (.error .ffmpegRunFailed, ⟨env.parentMissing, probed, true, args⟩)
  else if !env.encodeExitSuccess then
    (.error .ffmpegExitError, ⟨env.parentMissing, probed, true, args⟩)
  else
    match env.outputSize with
    | none =>
      (.error .outputMetadataFailed, ⟨env.parentMissing, probed, true, args⟩)
    | some compressed_size =>
      (.ok ⟨original_size, compressed_size,
            size_reduction_percent original_size compressed_size,
            env.elapsedSeconds⟩,
       ⟨env.parentMissing, probed, true, args⟩)

/-- Function `compress_video` (`video.rs` lines 46-175), step for step: existence
check, extension check, parent-directory creation, input metadata, ffmpeg
availability check, ffprobe spawn (spawn failure propagates via `?`), parse
and resize decision, encoder invocation, exit-status check, output metadata,
statistics. -/
def compress_video (env : VideoEnv) (input_path output_path crf preset : String) :
    Except VideoError CompressionStats × Trace :=
  if !env.inputExists then (.error .fileNotFound, empty_trace)
  else if !ext_ok env.inputExtension then (.error .unsupportedFormat, empty_trace)
  else if env.parentMissing && !env.createDirOk then
    (.error .createDirFailed, ⟨env.parentMissing, false, false, []⟩)
  else
    match env.inputSize with
    | none => (.error .metadataFailed, ⟨env.parentMissing, false, false, []⟩)
    | some original_size =>
      if !env.ffmpegOk then
        (.error .encoderUnavailable, ⟨env.parentMissing, false, false, []⟩)
      else
        match env.probeSpawn with
        | none => (.error .probeRunFailed, ⟨env.parentMissing, true, false, []⟩)
        | some probe_stdout =>
          run_encode env original_size true
            (ffmpeg_args input_path output_path crf preset
              (probe_resize probe_stdout))

/-- Struct `CompressionOptions` (`video.rs` lines 336-355). -/
structure CompressionOptions where
  video_codec : String
  crf : Option String
  preset : Option String
  video_bitrate : Option String
  resolution : Option String
  audio_codec : Option String
  audio_bitrate : Option String
  custom_options : List (String × String)
  auto_resize_to_fullhd : Bool
deriving DecidableEq, Repr

/-- The `impl Default for CompressionOptions` (`video.rs` lines 357-371). -/
def CompressionOptions.default : CompressionOptions :=
  { video_codec := "libx264"
    crf := some "23"
    preset := some "medium"
    video_bitrate := none
    resolution := none
    audio_codec := some "aac"
    audio_bitrate := some "128k"
    custom_options := []
    auto_resize_to_fullhd := true }

/-- The argument list constructed by `compress_video_with_options`
(`video.rs` lines 257-304): `-c:v` is always present; every optional
parameter contributes its flag only when set; the auto-resize filter takes
precedence over an explicit `-s` resolution; custom options append the key
and, when non-empty, the value; `-y` and the output path close the list. -/
def build_options_args (input_path output_path : String)
    (o : CompressionOptions) (auto_resize : Bool) : List String :=
  ["-i", input_path, "-c:v", o.video_codec]
  ++ (match o.crf with | some c => ["-crf", c] | none => [])
  ++ (match o.preset with | some p => ["-preset", p] | none => [])
  ++ (match o.video_bitrate with | some b => ["-b:v", b] | none => [])
  ++ (if auto_resize then ["-vf", "scale=1920:-2"]
      else match o.resolution with | some r => ["-s", r] | none => [])
  ++ (match o.audio_codec with | some a => ["-c:a", a] | none => [])
  ++ (match o.audio_bitrate with | some b => ["-b:a", b] | none => [])
  ++ (o.custom_options.map
        (fun kv => kv.1 :: (if kv.2 = "" then [] else [kv.2]))).flatten
  ++ ["-y", output_path]

/-- Function `compress_video_with_options` (`video.rs` lines 188-332): existence
check, parent-directory creation, input metadata, ffmpeg availability, then
— only when `auto_resize_to_fullhd` is set and no explicit resolution is
given — the ffprobe spawn (spawn failure propagates via `?`) and the
aspect-ratio decision; finally the configurable encoder invocation.  There
is no extension check in this variant. -/
def compress_video_with_options (env : VideoEnv)
    (input_path output_path : String) (o : CompressionOptions) :
    Except VideoError CompressionStats × Trace :=
  if !env.inputExists then (.error .fileNotFound, empty_trace)
  else if env.parentMissing && !env.createDirOk then
    (.error .createDirFailed, ⟨env.parentMissing, false, false, []⟩)
  else
    match env.inputSize with
    | none => (.error .metadataFailed, ⟨env.parentMissing, false, false, []⟩)
    | some original_size =>
      if !env.ffmpegOk then
        (.error .encoderUnavailable, ⟨env.parentMissing, false, false, []⟩)
      else
        if o.auto_resize_to_fullhd && o.resolution.isNone then
          match env.probeSpawn with
          | none => (.error .probeRunFailed, ⟨env.parentMissing, true, false, []⟩)
          | some probe_stdout =>
            run_encode env original_size true
              (build_options_args input_path output_path o
                (probe_resize probe_stdout))
        else
          run_encode env original_size false
            (build_options_args input_path output_path o false)

/-- A complete successful run at 1,000,000 → 250,000 bytes on which
`stats_reduction_formula` instantiates. -/
def c4_env : VideoEnv :=
  { inputExists := true, inputExtension := some "mp4".data,
    parentMissing := false, createDirOk := true, inputSize := some 1000000,
    ffmpegOk := true, probeSpawn := some "".data, encodeSpawnOk := true,
    encodeExitSuccess := true, outputSize := some 250000, elapsedSeconds := 1 }
/-- The environment of a run whose input file has size zero. -/
def zero_size_env : VideoEnv :=
  { inputExists := true, inputExtension := some "mp4".data,
    parentMissing := false, createDirOk := true, inputSize := some 0,
    ffmpegOk := true, probeSpawn := some "".data, encodeSpawnOk := true,
    encodeExitSuccess := true, outputSize := some 1024, elapsedSeconds := 1 }
/-- An environment whose input is missing. -/
def c8_missing_env : VideoEnv :=
  { inputExists := false, inputExtension := none, parentMissing := false,
    createDirOk := true, inputSize := none, ffmpegOk := false,
    probeSpawn := none, encodeSpawnOk := false, encodeExitSuccess := false,
    outputSize := none, elapsedSeconds := 0 }
/-- An environment whose input exists but carries a `.txt` extension. -/
def c8_txt_env : VideoEnv :=
  { c8_missing_env with inputExists := true, inputExtension := some "txt".data }
/-- An environment where ffmpeg's version probe fails but the output parent
directory was missing and its creation succeeds. -/
def c7_env : VideoEnv :=
  { inputExists := true, inputExtension := some "mp4".data,
    parentMissing := true, createDirOk := true, inputSize := some 5,
    ffmpegOk := false, probeSpawn := some "".data, encodeSpawnOk := true,
    encodeExitSuccess := true, outputSize := some 1, elapsedSeconds := 0 }
/-- An environment in which the ffprobe subprocess fails to spawn. -/
def c6_env : VideoEnv :=
  { inputExists := true, inputExtension := some "mp4".data,
    parentMissing := false, createDirOk := true, inputSize := some 5,
    ffmpegOk := true, probeSpawn := none, encodeSpawnOk := true,
    encodeExitSuccess := true, outputSize := some 1, elapsedSeconds := 0 }
/-- An environment whose prober output has three comma-separated fields and
therefore fails to parse. -/
def c6_parse_env : VideoEnv :=
  { inputExists := true, inputExtension := some "mp4".data,
    parentMissing := false, createDirOk := true, inputSize := some 5,
    ffmpegOk := true, probeSpawn := some "960,540,25".data,
    encodeSpawnOk := true, encodeExitSuccess := true, outputSize := some 1,
    elapsedSeconds := 0 }
/-- The reserved flag strings of the configurable encoder invocation. -/
def ffmpeg_option_flags : List String :=
  ["-i", "-c:v", "-crf", "-preset", "-b:v", "-vf", "-s", "-c:a", "-b:a", "-y"]
/-- The caller-supplied strings (paths, codec names, parameter values,
custom keys and values) are distinct from the reserved flag strings, so flag
occurrences in the argument list are attributable to the builder alone. -/
def no_flag_collision (input_path output_path : String)
    (o : CompressionOptions) : Prop :=
  input_path ∉ ffmpeg_option_flags ∧ output_path ∉ ffmpeg_option_flags ∧
  o.video_codec ∉ ffmpeg_option_flags ∧
  (∀ x, o.crf = some x → x ∉ ffmpeg_option_flags) ∧
  (∀ x, o.preset = some x → x ∉ ffmpeg_option_flags) ∧
  (∀ x, o.video_bitrate = some x → x ∉ ffmpeg_option_flags) ∧
  (∀ x, o.resolution = some x → x ∉ ffmpeg_option_flags) ∧
  (∀ x, o.audio_codec = some x → x ∉ ffmpeg_option_flags) ∧
  (∀ x, o.audio_bitrate = some x → x ∉ ffmpeg_option_flags) ∧
  (∀ kv ∈ o.custom_options, kv.1 ∉ ffmpeg_option_flags ∧
    kv.2 ∉ ffmpeg_option_flags)

/-! ## Helper lemmas -/

lemma round_half_away_of_nonneg (q : ℚ) (hq : 0 ≤ q) :
    round_half_away q = ⌊q + 1/2⌋ := by
  unfold round_half_away
  rw [if_neg (not_lt.mpr hq)]

lemma aspect_ratio_3dp_eq (w h : Nat) (n : ℤ)
    (hfl : ⌊(w : ℚ) / (h : ℚ) * 1000 + 1/2⌋ = n) :
    aspect_ratio_3dp w h = (n : ℚ)/1000 := by
  unfold aspect_ratio_3dp
  rw [round_half_away_of_nonneg _ (by positivity), hfl]

lemma aspect_3dp_1920_1080 : aspect_ratio_3dp 1920 1080 = 1778/1000 := by
  apply aspect_ratio_3dp_eq
  push_cast
  norm_num [Int.floor_eq_iff]

lemma aspect_3dp_3840_2160 : aspect_ratio_3dp 3840 2160 = 1778/1000 := by
  apply aspect_ratio_3dp_eq
  push_cast
  norm_num [Int.floor_eq_iff]

lemma aspect_3dp_1920_1200 : aspect_ratio_3dp 1920 1200 = 1600/1000 := by
  apply aspect_ratio_3dp_eq
  push_cast
  norm_num [Int.floor_eq_iff]

/-! ## Theorems about the claims -/

/-- C1: the driver's exclusion check is NOT true subtree containment: with
output directory `compress` (under working directory `/home/user`), the
explicit input `compress/a.mp4` IS a descendant of the canonicalized output
root yet is not skipped, while `./photos/compress/b.mp4` is NOT a descendant
yet is skipped, because `main.rs` merely substring-matches `"/compress/"`
against the path string. -/
theorem exclusion_substring_check_bug :
    (main_skip_check "compress" "compress/a.mp4" = false ∧
     is_descendant ["home", "user", "compress"]
       ["home", "user", "compress", "a.mp4"] = true) ∧
    (main_skip_check "compress" "./photos/compress/b.mp4" = true ∧
     is_descendant ["home", "user", "compress"]
       ["home", "user", "photos", "compress", "b.mp4"] = false) := by
  decide

/-- C2: the downscale filter decision holds exactly when the
three-decimal-rounded aspect ratio lies in `[1.775, 1.781]` and the frame
exceeds FullHD in some dimension; the boundary examples behave as specified
(1920x1080 → no resize, 3840x2160 → resize, 1920x1200 → no resize), and the
decision applied to parsed prober output is exactly this predicate. -/
theorem resize_policy_spec :
    (∀ w h : Nat,
      resize_decision w h = true ↔
        ((1775 : ℚ)/1000 ≤ aspect_ratio_3dp w h ∧
         aspect_ratio_3dp w h ≤ (1781 : ℚ)/1000 ∧
         (1920 < w ∨ 1080 < h))) ∧
    (∀ s w h, parse_dims s = some (w, h) → probe_resize s = resize_decision w h) ∧
    resize_decision 1920 1080 = false ∧
    resize_decision 3840 2160 = true ∧
    resize_decision 1920 1200 = false := by
  refine ⟨?_, ?_, ?_, ?_, ?_⟩
  · intro w h
    simp [resize_decision, is_16_9, and_assoc]
  · intro s w h hp
    simp [probe_resize, hp]
  · simp only [resize_decision, is_16_9, aspect_3dp_1920_1080]
    norm_num
  · simp only [resize_decision, is_16_9, aspect_3dp_3840_2160]
    norm_num
  · simp only [resize_decision, is_16_9, aspect_3dp_1920_1200]
    norm_num

/-- C3: the per-file skip decision is true exactly when the output metadata
probe succeeds (the output target already exists) and `force` is unset; with
`force` set it is false regardless of existence. -/
theorem shouldSkip_spec :
    ∀ output_metadata_ok force : Bool,
      (shouldSkip output_metadata_ok force = true ↔
        (output_metadata_ok = true ∧ force = false)) ∧
      shouldSkip output_metadata_ok true = false := by
  decide

/-- C10: `get_aspect_ratio` is total: it returns `0` whenever either
dimension is `0`, and the exact quotient otherwise — the guard means the
division is never reached with a zero divisor. -/
theorem get_aspect_ratio_total (w h : Nat) :
    get_aspect_ratio w 0 = 0 ∧ get_aspect_ratio 0 h = 0 ∧
    (w ≠ 0 → h ≠ 0 → get_aspect_ratio w h = (w : ℚ) / (h : ℚ)) := by
  refine ⟨by simp [ get_aspect_ratio], by simp [ get_aspect_ratio], ?_⟩
  intro hw hh
  simp [ get_aspect_ratio, hw, hh]

/-- The hypotheses of `get_aspect_ratio_total` hold at 3840x2160 and the
guarded quotient is the exact ratio there. -/
theorem get_aspect_ratio_total_witness :
    (3840 : Nat) ≠ 0 ∧ (2160 : Nat) ≠ 0 ∧
    get_aspect_ratio 3840 2160 = (3840 : ℚ) / 2160 :=
  ⟨by decide, by decide,
   (get_aspect_ratio_total 3840 2160).2.2 (by decide) (by decide)⟩

lemma run_encode_ok (env : VideoEnv) (os : Nat) (probed : Bool)
    (args : List String) (stats : CompressionStats) (tr : Trace)
    (h : run_encode env os probed args = (.ok stats, tr)) :
    stats.size_reduction_percent =
      100 * (1 - (stats.compressed_size : ℚ) / (stats.original_size : ℚ)) := by
  unfold run_encode at h
  repeat' split at h
  all_goals injection h with h1 h2
  any_goals exact Except.noConfusion h1
  injection h1 with h3
  subst h3
  simp [size_reduction_percent]

/-- C4: every successful encode — in either variant — returns statistics
whose size-reduction percentage is `100 * (1 - compressed/original)` over its
own recorded sizes, and at 1,000,000 original / 250,000 compressed bytes the
percentage is exactly 75. -/
theorem stats_reduction_formula :
    (∀ (env : VideoEnv) (i o crf preset : String) stats tr,
      compress_video env i o crf preset = (.ok stats, tr) →
      stats.size_reduction_percent =
        100 * (1 - (stats.compressed_size : ℚ) / (stats.original_size : ℚ))) ∧
    (∀ (env : VideoEnv) (i o : String) (opts : CompressionOptions) stats tr,
      compress_video_with_options env i o opts = (.ok stats, tr) →
      stats.size_reduction_percent =
        100 * (1 - (stats.compressed_size : ℚ) / (stats.original_size : ℚ))) ∧
    size_reduction_percent 1000000 250000 = 75 := by
  refine ⟨?_, ?_, ?_⟩
  · intro env i o crf preset stats tr h
    unfold compress_video at h
    repeat' split at h
    any_goals (injection h with h1 h2; exact Except.noConfusion h1)
    all_goals exact run_encode_ok _ _ _ _ _ _ h
  · intro env i o opts stats tr h
    unfold compress_video_with_options at h
    repeat' split at h
    any_goals (injection h with h1 h2; exact Except.noConfusion h1)
    all_goals exact run_encode_ok _ _ _ _ _ _ h
  · norm_num [size_reduction_percent]

/-- The hypothesis of `stats_reduction_formula` holds at `c4_env` and yields
the formula for the returned record. -/
theorem stats_reduction_formula_witness :
    compress_video c4_env "in.mp4" "out.mp4" "23" "medium" =
      (.ok ⟨1000000, 250000, size_reduction_percent 1000000 250000, 1⟩,
       ⟨false, true, true, ffmpeg_args "in.mp4" "out.mp4" "23" "medium" false⟩) ∧
    (⟨1000000, 250000, size_reduction_percent 1000000 250000, 1⟩ :
        CompressionStats).size_reduction_percent =
      100 * (1 - ((⟨1000000, 250000, size_reduction_percent 1000000 250000, 1⟩ :
        CompressionStats).compressed_size : ℚ) /
        ((⟨1000000, 250000, size_reduction_percent 1000000 250000, 1⟩ :
        CompressionStats).original_size : ℚ)) :=
  ⟨rfl, stats_reduction_formula.1 c4_env "in.mp4" "out.mp4" "23" "medium" _ _ rfl⟩

/-- C5: a zero-byte input reaches the statistics computation unguarded: the
encode succeeds and the reduction percentage is computed by the same
`100 * (1 - compressed/original)` with `original = 0` — a division by zero
(in Rust `f64` this is `NaN`/`-inf`; the `ℚ` model's `x/0 = 0` convention
makes it `100`, an artifact, not a handled case). -/
theorem stats_zero_original_unguarded :
    (compress_video zero_size_env "in.mp4" "out.mp4" "23" "medium").1 =
      .ok ⟨0, 1024, size_reduction_percent 0 1024, 1⟩ ∧
    (∀ c : Nat, size_reduction_percent 0 c = 100 * (1 - (c : ℚ) / 0)) ∧
    size_reduction_percent 0 1024 = 100 := by
  refine ⟨rfl, fun c => by simp [size_reduction_percent], ?_⟩
  norm_num [size_reduction_percent]

lemma ext_ok_iff (e : List Char) :
    ext_ok (some e) = true ↔
      e.map Char.toLower ∈
        ["mp4".data, "mov".data, "avi".data, "mkv".data,
         "webm".data, "wmv".data, "flv".data] := by
  show video_extensions.contains ('.' :: e.map Char.toLower) = true ↔ _
  rw [List.elem_iff]
  have e1 : (".mp4".data) = '.' :: "mp4".data := rfl
  have e2 : (".avi".data) = '.' :: "avi".data := rfl
  have e3 : (".mov".data) = '.' :: "mov".data := rfl
  have e4 : (".mkv".data) = '.' :: "mkv".data := rfl
  have e5 : (".wmv".data) = '.' :: "wmv".data := rfl
  have e6 : (".flv".data) = '.' :: "flv".data := rfl
  have e7 : (".webm".data) = '.' :: "webm".data := rfl
  simp only [video_extensions, e1, e2, e3, e4, e5, e6, e7, List.mem_cons,
    List.cons.injEq, List.not_mem_nil, or_false, true_and]
  tauto

/-- C8: the baseline encode rejects a missing input with the file-not-found
error and — for an existing input — rejects any extension outside the
accepted set (case-insensitively, via lower-casing) with the
unsupported-format error; both rejections return the empty trace, so no
directory is created, no probe runs and no encoder is invoked.  The accepted
set is exactly {mp4, mov, avi, mkv, webm, wmv, flv}, and a missing extension
is rejected. -/
theorem compress_video_preconditions :
    (∀ (env : VideoEnv) (i o crf preset : String),
      env.inputExists = false →
      compress_video env i o crf preset = (.error .fileNotFound, empty_trace)) ∧
    (∀ (env : VideoEnv) (i o crf preset : String),
      env.inputExists = true → ext_ok env.inputExtension = false →
      compress_video env i o crf preset =
        (.error .unsupportedFormat, empty_trace)) ∧
    (∀ e : List Char, ext_ok (some e) = true ↔
      e.map Char.toLower ∈
        ["mp4".data, "mov".data, "avi".data, "mkv".data,
         "webm".data, "wmv".data, "flv".data]) ∧
    ext_ok none = false := by
  refine ⟨?_, ?_, ext_ok_iff, rfl⟩
  · intro env i o crf preset hex
    unfold compress_video
    simp [hex]
  · intro env i o crf preset hex hext
    unfold compress_video
    simp [hex, hext]

/-- The hypotheses of `compress_video_preconditions` hold at concrete
environments: a missing input gives file-not-found, a `.txt` input gives
unsupported-format, both with the empty trace. -/
theorem compress_video_preconditions_witness :
    compress_video c8_missing_env "a.txt" "b.mp4" "23" "fast" =
      (.error .fileNotFound, empty_trace) ∧
    compress_video c8_txt_env "a.txt" "b.mp4" "23" "fast" =
      (.error .unsupportedFormat, empty_trace) :=
  ⟨compress_video_preconditions.1 c8_missing_env "a.txt" "b.mp4" "23" "fast" rfl,
   compress_video_preconditions.2.1 c8_txt_env "a.txt" "b.mp4" "23" "fast" rfl
     (by decide)⟩

/-- C7 counterexample: with ffmpeg unavailable the encoder-unavailable error
is returned, but the directory-preparation side effect HAS been performed —
`compress_video` creates the output parent directory (and reads the input
metadata) before its ffmpeg availability check, contradicting the claimed
step order. -/
theorem encoder_unavailable_after_dir_create :
    (compress_video c7_env "in.mp4" "out/in.mp4" "23" "medium").1 =
      .error .encoderUnavailable ∧
    (compress_video c7_env "in.mp4" "out/in.mp4" "23"
      "medium").2.dirCreateAttempted = true :=
  ⟨rfl, rfl⟩

/-- C7 (amended): when the ffmpeg version probe fails — for an existing,
supported input whose directory preparation and metadata read succeed — the
encoder-unavailable error is returned with no probe attempted and no encoder
invoked; directory preparation, however, precedes the environment check, so
the trace records a creation attempt exactly when the parent was missing. -/
theorem encoder_unavailable_no_probe (env : VideoEnv) (i o crf preset : String)
    (hex : env.inputExists = true) (hext : ext_ok env.inputExtension = true)
    (hdir : env.parentMissing = false ∨ env.createDirOk = true)
    (n : Nat) (hsz : env.inputSize = some n) (hff : env.ffmpegOk = false) :
    compress_video env i o crf preset =
      (.error .encoderUnavailable, ⟨env.parentMissing, false, false, []⟩) := by
  unfold compress_video
  rcases hdir with hd | hd <;> simp [hex, hext, hsz, hff, hd]

/-- The hypotheses of `encoder_unavailable_no_probe` hold at `c7_env`. -/
theorem encoder_unavailable_no_probe_witness :
    compress_video c7_env "in.mp4" "out/in.mp4" "23" "medium" =
      (.error .encoderUnavailable, ⟨c7_env.parentMissing, false, false, []⟩) :=
  encoder_unavailable_no_probe c7_env "in.mp4" "out/in.mp4" "23" "medium"
    rfl (by decide) (Or.inr rfl) 5 rfl rfl

/-- C6 counterexample: a failure to RUN the prober (spawn failure) is
surfaced as an error of the encode in both variants, because the Rust code
applies `?` to `Command::output()` — only parse failures fall back to an
unscaled encode. -/
theorem probe_spawn_failure_surfaced :
    (compress_video c6_env "in.mp4" "out.mp4" "23" "medium").1 =
      .error .probeRunFailed ∧
    (compress_video_with_options c6_env "in.mp4" "out.mp4"
      CompressionOptions.default).1 = .error .probeRunFailed :=
  ⟨rfl, rfl⟩

/-- C6 (amended): in both variants, prober output that does not parse as
exactly two comma-separated integers is recovered locally — the run never
returns the probe error and, whenever the encoder is invoked, its argument
list is the unscaled one (no `-vf` filter); only a failure to spawn the
prober is surfaced as an error. -/
theorem probe_parse_failure_recovered :
    (∀ (env : VideoEnv) (i o crf preset : String) (s : List Char),
      env.probeSpawn = some s → parse_dims s = none →
      (compress_video env i o crf preset).1 ≠ .error .probeRunFailed ∧
      ((compress_video env i o crf preset).2.encoderInvoked = true →
        (compress_video env i o crf preset).2.encoderArgs =
          ffmpeg_args i o crf preset false)) ∧
    (∀ (env : VideoEnv) (i o : String) (opts : CompressionOptions) (s : List Char),
      env.probeSpawn = some s → parse_dims s = none →
      (compress_video_with_options env i o opts).1 ≠ .error .probeRunFailed ∧
      ((compress_video_with_options env i o opts).2.encoderInvoked = true →
        (compress_video_with_options env i o opts).2.encoderArgs =
          build_options_args i o opts false)) := by
  constructor
  · intro env i o crf preset s hs hp
    unfold compress_video run_encode
    simp only [hs, probe_resize, hp]
    repeat' split
    all_goals simp_all [empty_trace]
  · intro env i o opts s hs hp
    unfold compress_video_with_options run_encode
    simp only [hs, probe_resize, hp]
    repeat' split
    all_goals simp_all [empty_trace]

/-- The hypotheses of `probe_parse_failure_recovered` hold at
`c6_parse_env` with its unparseable three-field prober output. -/
theorem probe_parse_failure_recovered_witness :
    c6_parse_env.probeSpawn = some "960,540,25".data ∧
    parse_dims "960,540,25".data = none ∧
    ((compress_video c6_parse_env "in.mp4" "out.mp4" "23" "medium").1 ≠
      .error .probeRunFailed ∧
     ((compress_video c6_parse_env "in.mp4" "out.mp4" "23"
        "medium").2.encoderInvoked = true →
      (compress_video c6_parse_env "in.mp4" "out.mp4" "23"
        "medium").2.encoderArgs =
        ffmpeg_args "in.mp4" "out.mp4" "23" "medium" false)) :=
  ⟨rfl, by decide,
   probe_parse_failure_recovered.1 c6_parse_env "in.mp4" "out.mp4" "23"
     "medium" "960,540,25".data rfl (by decide)⟩

/-- The parse hypothesis of `resize_policy_spec` holds at the concrete
prober output `3840,2160`. -/
theorem resize_policy_spec_witness :
    parse_dims "3840,2160".data = some (3840, 2160) ∧
    probe_resize "3840,2160".data = resize_decision 3840 2160 :=
  ⟨by decide,
   resize_policy_spec.2.1 "3840,2160".data 3840 2160 (by decide)⟩

lemma mem_opt_segment (f flag : String) (v : Option String)
    (hv : ∀ x, v = some x → f ≠ x) :
    (f ∈ (match v with | some x => [flag, x] | none => ([] : List String))) ↔
      (f = flag ∧ v.isSome = true) := by
  cases v with
  | none => simp
  | some x => simp [hv x rfl]

lemma not_mem_custom_segment (f : String) (l : List (String × String))
    (h : ∀ kv ∈ l, f ≠ kv.1 ∧ f ≠ kv.2) :
    f ∉ (l.map (fun kv => kv.1 :: (if kv.2 = "" then [] else [kv.2]))).flatten := by
  induction l with
  | nil => simp
  | cons kv t ih =>
    have h1 := h kv (List.mem_cons_self kv t)
    have h2 : ∀ kv2 ∈ t, f ≠ kv2.1 ∧ f ≠ kv2.2 :=
      fun kv2 hm => h kv2 (List.mem_cons_of_mem _ hm)
    simp only [List.map_cons, List.flatten_cons, List.mem_append, List.mem_cons,
      not_or]
    refine ⟨⟨h1.1, ?_⟩, ih h2⟩
    split
    · simp
    · simp [h1.2]

lemma mem_build_options_args (f input_path output_path : String)
    (o : CompressionOptions) (ar : Bool)
    (hi : f ≠ input_path) (ho : f ≠ output_path) (hvc : f ≠ o.video_codec)
    (h1 : ∀ x, o.crf = some x → f ≠ x)
    (h2 : ∀ x, o.preset = some x → f ≠ x)
    (h3 : ∀ x, o.video_bitrate = some x → f ≠ x)
    (h4 : ∀ x, o.resolution = some x → f ≠ x)
    (h5 : ∀ x, o.audio_codec = some x → f ≠ x)
    (h6 : ∀ x, o.audio_bitrate = some x → f ≠ x)
    (h7 : ∀ kv ∈ o.custom_options, f ≠ kv.1 ∧ f ≠ kv.2)
    (hsc : f ≠ "scale=1920:-2") :
    (f ∈ build_options_args input_path output_path o ar) ↔
      (f = "-i" ∨ f = "-c:v" ∨
       (f = "-crf" ∧ o.crf.isSome = true) ∨
       (f = "-preset" ∧ o.preset.isSome = true) ∨
       (f = "-b:v" ∧ o.video_bitrate.isSome = true) ∨
       (f = "-vf" ∧ ar = true) ∨
       (f = "-s" ∧ ar = false ∧ o.resolution.isSome = true) ∨
       (f = "-c:a" ∧ o.audio_codec.isSome = true) ∨
       (f = "-b:a" ∧ o.audio_bitrate.isSome = true) ∨
       f = "-y") := by
  have hcu := not_mem_custom_segment f o.custom_options h7
  unfold build_options_args
  simp only [List.mem_append, List.mem_cons, List.not_mem_nil, or_false,
    mem_opt_segment f "-crf" o.crf h1, mem_opt_segment f "-preset" o.preset h2,
    mem_opt_segment f "-b:v" o.video_bitrate h3,
    mem_opt_segment f "-c:a" o.audio_codec h5,
    mem_opt_segment f "-b:a" o.audio_bitrate h6,
    hcu, hi, ho, hvc, false_or, or_false, or_assoc]
  cases ar with
  | true => simp [hsc]
  | false =>
    cases hr : o.resolution with
    | none => simp
    | some r => simp [hr, h4 r hr]

/-- C9: in the configurable variant, under the no-collision side condition,
each optional parameter contributes its flag to the built argument list
exactly when it is set; the `-c:v` video-codec flag is always present and
defaults to `libx264`; with an explicit resolution the probe (and hence the
auto-resize heuristic) is suppressed and the `-s` form is used; the `-vf`
auto-resize filter can appear in an actual run's argument list only when no
explicit resolution is given and the auto-resize flag (default: enabled) is
set. -/
theorem options_invocation_spec (input_path output_path : String)
    (o : CompressionOptions)
    (hclean : no_flag_collision input_path output_path o) :
    (∀ ar : Bool,
      "-c:v" ∈ build_options_args input_path output_path o ar ∧
      ("-crf" ∈ build_options_args input_path output_path o ar ↔
        o.crf.isSome = true) ∧
      ("-preset" ∈ build_options_args input_path output_path o ar ↔
        o.preset.isSome = true) ∧
      ("-b:v" ∈ build_options_args input_path output_path o ar ↔
        o.video_bitrate.isSome = true) ∧
      ("-c:a" ∈ build_options_args input_path output_path o ar ↔
        o.audio_codec.isSome = true) ∧
      ("-b:a" ∈ build_options_args input_path output_path o ar ↔
        o.audio_bitrate.isSome = true) ∧
      ("-vf" ∈ build_options_args input_path output_path o ar ↔ ar = true) ∧
      ("-s" ∈ build_options_args input_path output_path o ar ↔
        (ar = false ∧ o.resolution.isSome = true))) ∧
    (∀ env : VideoEnv, o.resolution.isSome = true →
      (compress_video_with_options env input_path output_path
        o).2.probeAttempted = false ∧
      ((compress_video_with_options env input_path output_path
        o).2.encoderInvoked = true →
       (compress_video_with_options env input_path output_path
        o).2.encoderArgs = build_options_args input_path output_path o false)) ∧
    (∀ env : VideoEnv,
      "-vf" ∈ (compress_video_with_options env input_path output_path
        o).2.encoderArgs →
      o.auto_resize_to_fullhd = true ∧ o.resolution = none) ∧
    CompressionOptions.default.video_codec = "libx264" ∧
    CompressionOptions.default.auto_resize_to_fullhd = true := by
  obtain ⟨hin, hout, hvc, hcrf, hpre, hbv, hres, hac, hab, hcust⟩ := hclean
  have hne : ∀ g : String, g ∈ ffmpeg_option_flags →
      g ≠ input_path ∧ g ≠ output_path ∧ g ≠ o.video_codec ∧
      (∀ x, o.crf = some x → g ≠ x) ∧ (∀ x, o.preset = some x → g ≠ x) ∧
      (∀ x, o.video_bitrate = some x → g ≠ x) ∧
      (∀ x, o.resolution = some x → g ≠ x) ∧
      (∀ x, o.audio_codec = some x → g ≠ x) ∧
      (∀ x, o.audio_bitrate = some x → g ≠ x) ∧
      (∀ kv ∈ o.custom_options, g ≠ kv.1 ∧ g ≠ kv.2) := by
    intro g hg
    exact ⟨fun he => hin (he ▸ hg), fun he => hout (he ▸ hg),
      fun he => hvc (he ▸ hg),
      fun x hx he => hcrf x hx (he ▸ hg), fun x hx he => hpre x hx (he ▸ hg),
      fun x hx he => hbv x hx (he ▸ hg), fun x hx he => hres x hx (he ▸ hg),
      fun x hx he => hac x hx (he ▸ hg), fun x hx he => hab x hx (he ▸ hg),
      fun kv hm => ⟨fun he => (hcust kv hm).1 (he ▸ hg),
        fun he => (hcust kv hm).2 (he ▸ hg)⟩⟩
  have key : ∀ (g : String), g ∈ ffmpeg_option_flags → g ≠ "scale=1920:-2" →
      ∀ ar : Bool,
      (g ∈ build_options_args input_path output_path o ar) ↔
      (g = "-i" ∨ g = "-c:v" ∨
       (g = "-crf" ∧ o.crf.isSome = true) ∨
       (g = "-preset" ∧ o.preset.isSome = true) ∨
       (g = "-b:v" ∧ o.video_bitrate.isSome = true) ∨
       (g = "-vf" ∧ ar = true) ∨
       (g = "-s" ∧ ar = false ∧ o.resolution.isSome = true) ∨
       (g = "-c:a" ∧ o.audio_codec.isSome = true) ∨
       (g = "-b:a" ∧ o.audio_bitrate.isSome = true) ∨
       g = "-y") := by
    intro g hg hgs ar
    obtain ⟨a1, a2, a3, a4, a5, a6, a7, a8, a9, a10⟩ := hne g hg
    exact mem_build_options_args g input_path output_path o ar
      a1 a2 a3 a4 a5 a6 a7 a8 a9 a10 hgs
  refine ⟨?_, ?_, ?_, rfl, rfl⟩
  · intro ar
    refine ⟨?_, ?_, ?_, ?_, ?_, ?_, ?_, ?_⟩
    · rw [key "-c:v" (by simp [ffmpeg_option_flags]) (by simp) ar]; simp
    · rw [key "-crf" (by simp [ffmpeg_option_flags]) (by simp) ar]; simp
    · rw [key "-preset" (by simp [ffmpeg_option_flags]) (by simp) ar]; simp
    · rw [key "-b:v" (by simp [ffmpeg_option_flags]) (by simp) ar]; simp
    · rw [key "-c:a" (by simp [ffmpeg_option_flags]) (by simp) ar]; simp
    · rw [key "-b:a" (by simp [ffmpeg_option_flags]) (by simp) ar]; simp
    · rw [key "-vf" (by simp [ffmpeg_option_flags]) (by simp) ar]; simp
    · rw [key "-s" (by simp [ffmpeg_option_flags]) (by simp) ar]; simp
  · intro env hrs
    obtain ⟨r, hr⟩ := Option.isSome_iff_exists.mp hrs
    have hcond : (o.auto_resize_to_fullhd && o.resolution.isNone) = false := by
      simp [hr]
    unfold compress_video_with_options run_encode
    simp only [hcond, Bool.false_eq_true, if_false]
    repeat' split
    all_goals simp [empty_trace]
  · intro env hmem
    by_cases hc : (o.auto_resize_to_fullhd && o.resolution.isNone) = true
    · have hc2 : o.auto_resize_to_fullhd = true ∧ o.resolution.isNone = true := by
        simpa using hc
      exact ⟨hc2.1, Option.isNone_iff_eq_none.mp hc2.2⟩
    · exfalso
      have hnv : ¬("-vf" ∈ build_options_args input_path output_path o false) := by
        rw [key "-vf" (by simp [ffmpeg_option_flags]) (by simp) false]
        simp
      revert hmem
      rw [Bool.not_eq_true] at hc
      unfold compress_video_with_options run_encode
      simp only [hc, Bool.false_eq_true, if_false]
      repeat' split
      all_goals simp [empty_trace, hnv]

/-- The no-collision hypothesis of `options_invocation_spec` holds at the
default options with concrete paths, and the flag-presence conclusions
instantiate there. -/
theorem options_invocation_spec_witness :
    no_flag_collision "in.mp4" "out/in.mp4" CompressionOptions.default ∧
    "-c:v" ∈ build_options_args "in.mp4" "out/in.mp4"
      CompressionOptions.default false ∧
    ("-crf" ∈ build_options_args "in.mp4" "out/in.mp4"
       CompressionOptions.default false ↔
     CompressionOptions.default.crf.isSome = true) := by
  have hclean : no_flag_collision "in.mp4" "out/in.mp4"
      CompressionOptions.default := by
    refine ⟨by decide, by decide, by decide, ?_, ?_, ?_, ?_, ?_, ?_, ?_⟩
    · intro x hx
      simp [CompressionOptions.default] at hx
      subst hx
      decide
    · intro x hx
      simp [CompressionOptions.default] at hx
      subst hx
      decide
    · intro x hx
      simp [CompressionOptions.default] at hx
    · intro x hx
      simp [CompressionOptions.default] at hx
    · intro x hx
      simp [CompressionOptions.default] at hx
      subst hx
      decide
    · intro x hx
      simp [CompressionOptions.default] at hx
      subst hx
      decide
    · intro kv hm
      simp [CompressionOptions.default] at hm
  have h := options_invocation_spec "in.mp4" "out/in.mp4"
    CompressionOptions.default hclean
  exact ⟨hclean, (h.1 false).1, (h.1 false).2.1⟩
